import Mathlib

/-!
Verification of the change-detection and reconciliation engine of the
yandex_drive_sych repository, as a shallow embedding in Lean 4.

Python dictionaries iterate in insertion order, so a snapshot
(file path ↦ last-modified time) is modelled as an association list in
insertion order. Timestamps are only ever compared for equality, so they
are modelled as integers. Logger calls are modelled as structured log
entries carrying the data the source interpolates into the message.
-/

namespace YandexSync

/-- A directory snapshot: file path ↦ last-modified time, in the insertion
order of the Python dict built by get_folder_state. -/
abbrev Snapshot := List (String × Int)

/-- Dictionary key lookup, first match wins (Python dict access; with the
nodup-key invariant of a real dict, the first match is the only one). -/
def lookup : Snapshot → String → Option Int
  | [], _ => none
  | (k, v) :: rest, p => if k = p then some v else lookup rest p

/-- The keys of a snapshot, in iteration order. -/
def keys (s : Snapshot) : List String := s.map Prod.fst

theorem lookup_isSome_iff (s : Snapshot) (p : String) :
    (lookup s p).isSome = true ↔ p ∈ keys s := by
  induction s with
  | nil => simp [lookup, keys]
  | cons e rest ih =>
    obtain ⟨k, v⟩ := e
    by_cases h : k = p
    · subst h; simp [lookup, keys]
    · simp only [lookup, if_neg h, keys, List.map_cons, List.mem_cons, ih, keys]
      constructor
      · exact fun hm => Or.inr hm
      · rintro (rfl | hm)
        · exact absurd rfl h
        · exact hm

theorem lookup_isNone_iff (s : Snapshot) (p : String) :
    (lookup s p).isNone = true ↔ p ∉ keys s := by
  constructor
  · intro h hmem
    have hs := (lookup_isSome_iff s p).mpr hmem
    rw [Option.isNone_iff_eq_none] at h
    rw [h] at hs
    simp at hs
  · intro hmem
    cases hl : lookup s p with
    | none => rfl
    | some v =>
      exact absurd ((lookup_isSome_iff s p).mp (by simp [hl])) hmem

theorem keys_cons (e : String × Int) (rest : Snapshot) :
    keys (e :: rest) = e.1 :: keys rest := rfl

theorem lookup_self_of_nodup {s : Snapshot} (h : (keys s).Nodup) {p : String}
    {t : Int} (hm : (p, t) ∈ s) : lookup s p = some t := by
  induction s with
  | nil => cases hm
  | cons e rest ih =>
    obtain ⟨k, v⟩ := e
    simp only [keys, List.map_cons, List.nodup_cons] at h
    rcases List.mem_cons.mp hm with heq | hrest
    · cases heq
      simp [lookup]
    · have hk : k ≠ p := by
        intro hkp
        subst hkp
        exact h.1 (List.mem_map.mpr ⟨(k, t), hrest, rfl⟩)
      simpa [lookup, hk] using ih h.2 hrest

/-- The log levels of the loguru calls appearing in the source. -/
inductive LogLevel
  | info
  | warning
  | error
deriving DecidableEq, Repr

/-- One logger call: its level and its formatted message. -/
structure LogEntry where
  level : LogLevel
  msg : String
deriving DecidableEq, Repr

/-- The change-list computation shared by both has_folder_changed
implementations (FolderMonitor.py lines 55-64 and folder_monitoring.py lines
145-155, which are textually identical): one pass over the previous state
emitting "deleted" (path gone) or "modified" (timestamp differs), followed by
one pass over the current state emitting "new" (path absent before). -/
def changesOf (previous_state current_state : Snapshot) : List (String × String) :=
  (previous_state.filterMap (fun fm =>
    if (lookup current_state fm.1).isNone then some (fm.1, "deleted")
    else if lookup current_state fm.1 ≠ some fm.2 then some (fm.1, "modified")
    else none))
  ++ (current_state.filterMap (fun fm =>
    if (lookup previous_state fm.1).isNone then some (fm.1, "new") else none))

namespace FolderMonitor

/-- has_folder_changed (FolderMonitor.py lines 41-66), with the scan result
passed in as current_state: on the very first call previous_state is None and
the function reports no change; otherwise the flag is bool(changes). -/
def has_folder_changed (previous_state : Option Snapshot) (current_state : Snapshot) :
    Bool × Snapshot × List (String × String) :=
  match previous_state with
  | none => (false, current_state, [])
  | some prev =>
    let changes := changesOf prev current_state
    (!changes.isEmpty, current_state, changes)

end FolderMonitor

namespace FolderMonitoring

/-- has_folder_changed (folder_monitoring.py lines 138-158): same loops, with
the flag computed as len(changed_files) > 0. -/
def has_folder_changed (previous_state : Option Snapshot) (current_state : Snapshot) :
    Bool × Snapshot × List (String × String) :=
  match previous_state with
  | none => (false, current_state, [])
  | some prev =>
    let changed_files := changesOf prev current_state
    (decide (changed_files.length > 0), current_state, changed_files)

end FolderMonitoring

/-- The diff exactly as the specification states it, written from the claim's
words for comparison with the code-side changesOf: an entry of the previous
snapshot whose path is absent from the current one yields "deleted", one
present in both with a different timestamp yields "modified", these in the
previous snapshot's iteration order; then every path of the current snapshot
absent from the previous one yields "new", in the current snapshot's
iteration order; nothing else is emitted. -/
def specDiff (P C : Snapshot) : List (String × String) :=
  (P.filterMap (fun e =>
    if e.1 ∈ keys C then
      (if lookup C e.1 = some e.2 then none else some (e.1, "modified"))
    else some (e.1, "deleted")))
  ++ ((keys C).filter (fun p => decide (p ∉ keys P))).map (fun p => (p, "new"))

theorem changesOf_new_part (P C : Snapshot) :
    C.filterMap (fun fm =>
      if (lookup P fm.1).isNone then some (fm.1, "new") else none)
    = ((keys C).filter (fun p => decide (p ∉ keys P))).map (fun p => (p, "new")) := by
  induction C with
  | nil => simp [keys]
  | cons e rest ih =>
    rw [List.filterMap_cons, keys_cons, List.filter_cons]
    by_cases hmem : e.1 ∈ keys P
    · have hl : (lookup P e.1).isNone = false := by
        rw [Bool.eq_false_iff]
        intro hn
        exact (lookup_isNone_iff P e.1).mp hn hmem
      simp [hl, hmem]
      simpa using ih
    · have hl : (lookup P e.1).isNone = true := (lookup_isNone_iff P e.1).mpr hmem
      simp [hl, hmem]
      simpa using ih

theorem changesOf_eq_specDiff (P C : Snapshot) : changesOf P C = specDiff P C := by
  unfold changesOf specDiff
  rw [changesOf_new_part P C]
  congr 1
  apply List.filterMap_congr
  intro e _
  by_cases h : (lookup C e.1).isNone
  · have hmem : e.1 ∉ keys C := (lookup_isNone_iff C e.1).mp h
    simp [h, hmem]
  · have hmem : e.1 ∈ keys C := by
      by_contra hc
      exact h ((lookup_isNone_iff C e.1).mpr hc)
    by_cases heq : lookup C e.1 = some e.2
    · simp [h, hmem, heq]
    · simp [h, hmem, heq]

/-- Claim C1: for every previous snapshot P and current snapshot C,
has_folder_changed with previous_state = P and a scan yielding C emits exactly
the "deleted" entries (paths of P absent from C) and "modified" entries (paths
in both with differing timestamps) in P's iteration order, followed by the
"new" entries (paths of C absent from P) in C's iteration order, and nothing
else; this holds in both implementations of the function. -/
theorem has_folder_changed_emits_spec_diff (P C : Snapshot) :
    (FolderMonitor.has_folder_changed (some P) C).2.2 = specDiff P C
    ∧ (FolderMonitoring.has_folder_changed (some P) C).2.2 = specDiff P C := by
  refine ⟨?_, ?_⟩ <;>
    simp [FolderMonitor.has_folder_changed, FolderMonitoring.has_folder_changed,
      changesOf_eq_specDiff]

theorem changesOf_self_eq_nil {S : Snapshot} (h : (keys S).Nodup) :
    changesOf S S = [] := by
  unfold changesOf
  rw [List.append_eq_nil]
  constructor
  · rw [List.filterMap_eq_nil_iff]
    intro e he
    have hl : lookup S e.1 = some e.2 := lookup_self_of_nodup h he
    simp [hl]
  · rw [List.filterMap_eq_nil_iff]
    intro e he
    have hs : (lookup S e.1).isSome = true :=
      (lookup_isSome_iff S e.1).mpr (List.mem_map.mpr ⟨e, he, rfl⟩)
    cases hl : lookup S e.1 with
    | none => rw [hl] at hs; simp at hs
    | some v => simp [hl]

/-- Claim C9: diffing a snapshot against itself yields the empty change list
and the changed flag false, in both implementations. -/
theorem diff_self_empty (S : Snapshot) (h : (keys S).Nodup) :
    FolderMonitor.has_folder_changed (some S) S = (false, S, [])
    ∧ FolderMonitoring.has_folder_changed (some S) S = (false, S, []) := by
  have hc := changesOf_self_eq_nil h
  refine ⟨?_, ?_⟩ <;>
    simp [FolderMonitor.has_folder_changed, FolderMonitoring.has_folder_changed, hc]

/-- Witness for C9 at the concrete snapshot [("a.txt", 100), ("b.txt", 200)]. -/
theorem diff_self_empty_witness :
    (keys [("a.txt", (100 : Int)), ("b.txt", 200)]).Nodup
    ∧ FolderMonitor.has_folder_changed (some [("a.txt", (100 : Int)), ("b.txt", 200)])
        [("a.txt", 100), ("b.txt", 200)]
      = (false, [("a.txt", 100), ("b.txt", 200)], []) :=
  ⟨by decide, (diff_self_empty [("a.txt", 100), ("b.txt", 200)] (by decide)).1⟩

/-- The mutable attributes of a FolderMonitor instance that the claims are
about: previous_state, the monitoring flag, and whether a monitoring_thread
object exists (None in __init__, set by start_monitoring). -/
structure MonitorState where
  previous_state : Option Snapshot
  monitoring : Bool
  thread_started : Bool
deriving DecidableEq, Repr

/-- One entry of os.listdir, together with the os.path.isfile and
os.path.getmtime answers for the joined path. -/
structure DirEntry where
  name : String
  is_file : Bool
  mtime : Int
deriving DecidableEq, Repr

/-- os.path.join for a directory and a bare entry name (posix form). -/
def joinPath (dir name : String) : String := dir ++ "/" ++ name

/-- The outcome of os.listdir on the monitored folder: its entries, or the
FileNotFoundError raised when the directory does not exist. -/
inductive Listing
  | ok (entries : List DirEntry)
  | fileNotFound
deriving DecidableEq, Repr

namespace FolderMonitor

/-- The attribute values set by __init__ (FolderMonitor.py lines 21-25). -/
def init : MonitorState := ⟨none, false, false⟩

/-- start_monitoring (FolderMonitor.py lines 68-78): sets the flag and spawns
the monitoring thread; previous_state is left untouched. -/
def start_monitoring (st : MonitorState) : MonitorState :=
  { st with monitoring := true, thread_started := true }

/-- One iteration of the _monitor loop body (FolderMonitor.py lines 96-101)
on an already-computed scan result: the callback is invoked exactly when
has_folder_changed reports a change, then the current state becomes the
previous state. Returns the new state and the list of callback invocations,
each carrying its changes argument. -/
def monitor_step (st : MonitorState) (current : Snapshot) :
    MonitorState × List (List (String × String)) :=
  let r := has_folder_changed st.previous_state current
  ({ st with previous_state := some r.2.1 }, if r.1 then [r.2.2] else [])

/-- get_folder_state (FolderMonitor.py lines 27-39): builds the path ↦ mtime
dict over the regular files of the listing. There is no exception handler
here, so the FileNotFoundError of os.listdir propagates to the caller,
modelled as Except.error. -/
def get_folder_state (folder_path : String) : Listing → Except Unit Snapshot
  | .fileNotFound => .error ()
  | .ok entries => .ok (entries.filterMap (fun en =>
      if en.is_file then some (joinPath folder_path en.name, en.mtime) else none))

/-- One iteration of the _monitor loop (FolderMonitor.py lines 96-101) with
the scan outcome made explicit: neither _monitor nor has_folder_changed nor
get_folder_state catches a scan failure, so it propagates out of the loop
body and the monitoring thread terminates, modelled as Except.error. -/
def monitor_step_run (st : MonitorState) (folder_path : String) (listing : Listing) :
    Except Unit (MonitorState × List (List (String × String))) :=
  match get_folder_state folder_path listing with
  | .error e => .error e
  | .ok current => .ok (monitor_step st current)

/-- stop_monitoring (FolderMonitor.py lines 80-86): clears the flag, then
calls join() whenever a thread object exists; nothing is logged. Returns the
new state, whether join was called, and the emitted log entries. -/
def stop_monitoring (st : MonitorState) : MonitorState × Bool × List LogEntry :=
  ({ st with monitoring := false }, st.thread_started, [])

end FolderMonitor

namespace FolderMonitoring

/-- get_folder_state (folder_monitoring.py lines 121-136): the same dict
construction, but FileNotFoundError is caught: the condition is logged and
the empty dict is returned. Returns the snapshot and the log entries. -/
def get_folder_state (folder_path : String) : Listing → Snapshot × List LogEntry
  | .fileNotFound =>
      ([], [⟨LogLevel.error, "Папка " ++ folder_path ++ " не найдена."⟩])
  | .ok entries =>
      ((entries.filterMap (fun en =>
        if en.is_file then some (joinPath folder_path en.name, en.mtime) else none)), [])

/-- One iteration of the _monitor loop body (folder_monitoring.py lines
160-172) with the scan outcome made explicit: the scan itself never raises (a
missing directory was logged and became the empty snapshot), the changes are
logged, and the current state becomes the previous state. -/
def monitor_step (st : MonitorState) (folder_path : String) (listing : Listing) :
    MonitorState × List LogEntry :=
  let scan := get_folder_state folder_path listing
  let r := has_folder_changed st.previous_state scan.1
  let body : List LogEntry :=
    if r.1 then
      ⟨LogLevel.info, "Changes detected in the folder:"⟩ ::
        r.2.2.map (fun fc => ⟨LogLevel.info, "File " ++ fc.1 ++ " was " ++ fc.2⟩)
    else [⟨LogLevel.info, "No changes found"⟩]
  ({ st with previous_state := some r.2.1 }, scan.2 ++ body)

/-- stop_monitoring (folder_monitoring.py lines 182-189): when the flag is
set, clear it, join the thread and log at info level; otherwise log the
warning "Monitoring is not running." and change nothing. Returns the new
state, whether join was called, and the emitted log entries. -/
def stop_monitoring (st : MonitorState) : MonitorState × Bool × List LogEntry :=
  if st.monitoring then
    ({ st with monitoring := false }, true, [⟨LogLevel.info, "Stopped monitoring folder."⟩])
  else
    (st, false, [⟨LogLevel.warning, "Monitoring is not running."⟩])

end FolderMonitoring

namespace Controller

/-- os.path.basename on a posix path: everything after the last slash. -/
def basename (file_path : String) : String :=
  (file_path.splitOn "/").getLastD file_path

/-- The slice of an HTTP response that the controller inspects: the status
code, the "href" field of the parsed JSON body (response.json().get("href")),
and the rendered body used in error logs. -/
structure Response where
  status_code : Nat
  href : Option String
  body : String
deriving DecidableEq, Repr

/-- One entry of the action_map class attribute (Controller.py lines 33-54).
The alt fields model dict.get returning None for kinds without those keys. -/
structure Action where
  method : String
  success_code : Nat
  success_message : String
  error_message : String
  alt_code : Option Nat
  alt_message : Option String
deriving DecidableEq, Repr

/-- The "new" entry of action_map (Controller.py lines 34-39). -/
def new_action : Action :=
  ⟨"load", 201, "File uploaded", "Upload error", none, none⟩

/-- The "modified" entry of action_map (Controller.py lines 40-45). -/
def modified_action : Action :=
  ⟨"reload", 201, "Cloud updated", "Update error", none, none⟩

/-- The "deleted" entry of action_map (Controller.py lines 46-53). -/
def delete_action : Action :=
  ⟨"delete", 204, "File deleted", "Deletion error", some 202, some "Removing began"⟩

/-- action_map lookup by change kind (Controller.py lines 33-54, read through
dict.get on line 94): exactly three kinds are mapped. -/
def action_map (change_type : String) : Option Action :=
  if change_type = "new" then some new_action
  else if change_type = "modified" then some modified_action
  else if change_type = "deleted" then some delete_action
  else none

/-- _process_response (Controller.py lines 131-154). The comparison against
the alternative code mirrors Python: for actions without an "alt_code" key,
dict.get yields None and an integer status never equals None, so that branch
is dead. All three branches log at info level, as the source does. -/
def process_response (response : Response) (action : Action) (file_path : String) :
    List LogEntry :=
  if response.status_code = action.success_code then
    [⟨LogLevel.info, "[Yandex Drive] " ++ action.success_message ++ " for "
        ++ file_path ++ "."⟩]
  else if some response.status_code = action.alt_code then
    ⟨LogLevel.info, "[Yandex Drive] " ++ action.alt_message.getD "" ++ " for "
        ++ file_path ++ "."⟩ ::
      (match response.href with
       | some link =>
           [⟨LogLevel.info, "[Yandex Drive] Link to check status for " ++ file_path
               ++ ": " ++ link ++ "."⟩]
       | none => [])
  else
    [⟨LogLevel.info, "[Yandex Drive] " ++ action.error_message ++ " for " ++ file_path
        ++ ": " ++ toString response.status_code ++ ", " ++ response.body ++ "."⟩]

/-- A call on the cloud_sync collaborator, by method name and argument. -/
inductive CloudCall
  | load (arg : String)
  | reload (arg : String)
  | delete (arg : String)
deriving DecidableEq, Repr

/-- getattr(self.cloud_sync, method) applied to its argument (Controller.py
lines 101-102); the method names only ever come from action_map. -/
def toCall (method arg : String) : CloudCall :=
  if method = "delete" then .delete arg
  else if method = "reload" then .reload arg
  else .load arg

/-- The loop body of handle_changes (Controller.py lines 92-107) on one change
record, with the cloud collaborator as an oracle from calls to outcomes
(Except.error e models the call raising e). Returns the attempted cloud calls
and the log entries: an unknown kind logs a warning and calls nothing; a
raising call is caught, stays in the trace, and is logged with the file path
and change kind. -/
def handle_one (cloud : CloudCall → Except String Response)
    (change : String × String) : List CloudCall × List LogEntry :=
  match action_map change.2 with
  | none =>
      ([], [⟨LogLevel.warning, "[Yandex Drive] Unknown change type: " ++ change.2⟩])
  | some action =>
    let detected : LogEntry :=
      ⟨LogLevel.info, "[Yandex Drive] Detected " ++ change.2 ++ " file: " ++ change.1
          ++ ". Processing in cloud."⟩
    let call := toCall action.method
      (if action.method = "delete" then basename change.1 else change.1)
    match cloud call with
    | .ok response => ([call], detected :: process_response response action change.1)
    | .error e =>
        ([call], [detected,
          ⟨LogLevel.error, "[Yandex Drive] Error handling " ++ change.2 ++ " for "
              ++ change.1 ++ ": " ++ e⟩])

/-- handle_changes (Controller.py lines 79-107): the per-item loop over the
batch, accumulating attempted calls and logs. -/
def handle_changes (cloud : CloudCall → Except String Response) :
    List (String × String) → List CloudCall × List LogEntry
  | [] => ([], [])
  | change :: rest =>
    let one := handle_one cloud change
    let tail := handle_changes cloud rest
    (one.1 ++ tail.1, one.2 ++ tail.2)

theorem handle_changes_append (cloud : CloudCall → Except String Response)
    (xs ys : List (String × String)) :
    handle_changes cloud (xs ++ ys)
      = ((handle_changes cloud xs).1 ++ (handle_changes cloud ys).1,
         (handle_changes cloud xs).2 ++ (handle_changes cloud ys).2) := by
  induction xs with
  | nil => simp [handle_changes]
  | cons c rest ih => simp [handle_changes, ih]

/-- One remote entry as used by _sync_initial_state: only its name is read. -/
structure RemoteFile where
  name : String
deriving DecidableEq, Repr

/-- The first loop of _sync_initial_state (Controller.py lines 169-174): each
remote entry's deletion is attempted inside its own try; a raise is logged
and the loop continues. Returns attempted calls and error logs. -/
def delete_phase (cloud : CloudCall → Except String Unit) :
    List RemoteFile → List CloudCall × List LogEntry
  | [] => ([], [])
  | f :: rest =>
    let tail := delete_phase cloud rest
    match cloud (.delete f.name) with
    | .ok _ => (CloudCall.delete f.name :: tail.1, tail.2)
    | .error e =>
        (CloudCall.delete f.name :: tail.1,
          ⟨LogLevel.error, "[Yandex Drive] Error cleaning for " ++ f.name
              ++ " for Yandex Drive: " ++ e⟩ :: tail.2)

/-- The second loop of _sync_initial_state (Controller.py lines 177-182):
each local file's upload is attempted inside its own try. -/
def upload_phase (cloud : CloudCall → Except String Unit) :
    List String → List CloudCall × List LogEntry
  | [] => ([], [])
  | fp :: rest =>
    let tail := upload_phase cloud rest
    match cloud (.load fp) with
    | .ok _ => (CloudCall.load fp :: tail.1, tail.2)
    | .error e =>
        (CloudCall.load fp :: tail.1,
          ⟨LogLevel.error, "[Yandex Drive] Error uploading for " ++ fp ++ ": " ++ e⟩
            :: tail.2)

/-- _sync_initial_state (Controller.py lines 156-184): deletes every remote
entry, then uploads every file of the local snapshot, bracketed by the two
info messages. drive_files is the get_info() result, current_folder_files the
get_folder_state() result, cloud the per-call outcome oracle. -/
def sync_initial_state (cloud : CloudCall → Except String Unit)
    (drive_files : List RemoteFile) (current_folder_files : Snapshot) :
    List CloudCall × List LogEntry :=
  let deletes := delete_phase cloud drive_files
  let uploads := upload_phase cloud (keys current_folder_files)
  (deletes.1 ++ uploads.1,
    ⟨LogLevel.info, "[Yandex Drive] Started initial synchronising process"⟩ ::
      (deletes.2 ++ uploads.2)
      ++ [⟨LogLevel.info, "[Yandex Drive] Files synchronised"⟩])

theorem delete_phase_spec (cloud : CloudCall → Except String Unit)
    (files : List RemoteFile) :
    (delete_phase cloud files).1 = files.map (fun f => CloudCall.delete f.name)
    ∧ (delete_phase cloud files).2 = files.filterMap (fun f =>
        match cloud (CloudCall.delete f.name) with
        | .ok _ => none
        | .error e => some (LogEntry.mk LogLevel.error
            ("[Yandex Drive] Error cleaning for " ++ f.name ++ " for Yandex Drive: " ++ e))) := by
  induction files with
  | nil => exact ⟨rfl, rfl⟩
  | cons f rest ih =>
    cases hc : cloud (CloudCall.delete f.name) <;>
      simp [delete_phase, hc, ih.1, ih.2, List.filterMap_cons]

theorem upload_phase_spec (cloud : CloudCall → Except String Unit)
    (paths : List String) :
    (upload_phase cloud paths).1 = paths.map CloudCall.load
    ∧ (upload_phase cloud paths).2 = paths.filterMap (fun fp =>
        match cloud (CloudCall.load fp) with
        | .ok _ => none
        | .error e => some (LogEntry.mk LogLevel.error
            ("[Yandex Drive] Error uploading for " ++ fp ++ ": " ++ e))) := by
  induction paths with
  | nil => exact ⟨rfl, rfl⟩
  | cons fp rest ih =>
    cases hc : cloud (CloudCall.load fp) <;>
      simp [upload_phase, hc, ih.1, ih.2, List.filterMap_cons]

end Controller

/-- Claim C5: on the very first poll after start_monitoring (previous_state
is still None from __init__), the change callback is never invoked, whatever
the directory contents are, and the first observation is stored as the
baseline with zero emitted changes. -/
theorem first_poll_no_callback (current : Snapshot) :
    (FolderMonitor.monitor_step (FolderMonitor.start_monitoring FolderMonitor.init) current).2 = []
    ∧ (FolderMonitor.monitor_step (FolderMonitor.start_monitoring FolderMonitor.init)
        current).1.previous_state = some current := by
  constructor <;> rfl

/-- Claim C2 (code bug): when the monitored directory is missing at a poll
tick, the FolderMonitor.py variant — the one Controller.py and main.py use —
propagates the scan failure out of the loop body, terminating the monitoring
thread; the folder_monitoring.py variant logs the condition and yields the
empty snapshot, so its tick completes and polling continues. The claim
describes only the latter behaviour. -/
theorem scan_failure_kills_monitor :
    FolderMonitor.monitor_step_run ⟨some [("/d/a.txt", 100)], true, true⟩ "/d"
        Listing.fileNotFound
      = Except.error ()
    ∧ FolderMonitoring.get_folder_state "/d" Listing.fileNotFound
      = ([], [⟨LogLevel.error, "Папка /d не найдена."⟩])
    ∧ (FolderMonitoring.monitor_step ⟨some [("/d/a.txt", 100)], true, true⟩ "/d"
        Listing.fileNotFound).1.previous_state = some [] := by
  refine ⟨rfl, ?_, rfl⟩
  rfl

/-- Claim C8 counterexample: in FolderMonitor.py's stop_monitoring, calling
stop while the monitor is idle (never started: flag false, no thread object)
emits no log entry at all — in particular no warning, contrary to the claim's
"reported as a warning". -/
theorem stop_idle_logs_nothing :
    FolderMonitor.stop_monitoring ⟨none, false, false⟩
      = (⟨none, false, false⟩, false, []) := rfl

/-- Claim C8 (amended): calling stop while the monitor is not running leaves
the monitoring flag false in both implementations and joins no live thread;
the folder_monitoring.py variant is a strict no-op that reports the warning
"Monitoring is not running.", while the FolderMonitor.py variant logs nothing
(and re-joins the already-finished thread when one was started earlier). -/
theorem stop_idle_behavior (prev : Option Snapshot) (th : Bool) :
    FolderMonitor.stop_monitoring ⟨prev, false, th⟩ = (⟨prev, false, th⟩, th, [])
    ∧ FolderMonitoring.stop_monitoring ⟨prev, false, th⟩
      = (⟨prev, false, th⟩, false, [⟨LogLevel.warning, "Monitoring is not running."⟩]) := by
  constructor <;> rfl

/-- Claim C3: initial reconciliation issues exactly one delete per remote
entry, by its name and in listing order, followed by exactly one upload per
local path in snapshot order — all deletes before any upload — and this call
trace is identical for every failure pattern of the individual calls; a
failing call only contributes its per-item error log. -/
theorem sync_initial_state_trace (cloud : Controller.CloudCall → Except String Unit)
    (drive_files : List Controller.RemoteFile) (current_folder_files : Snapshot) :
    (Controller.sync_initial_state cloud drive_files current_folder_files).1
      = drive_files.map (fun f => Controller.CloudCall.delete f.name)
        ++ (keys current_folder_files).map Controller.CloudCall.load
    ∧ (Controller.sync_initial_state cloud drive_files current_folder_files).2
      = LogEntry.mk LogLevel.info "[Yandex Drive] Started initial synchronising process" ::
          (drive_files.filterMap (fun f =>
            match cloud (Controller.CloudCall.delete f.name) with
            | .ok _ => none
            | .error e => some (LogEntry.mk LogLevel.error
                ("[Yandex Drive] Error cleaning for " ++ f.name
                  ++ " for Yandex Drive: " ++ e)))
            ++ (keys current_folder_files).filterMap (fun fp =>
              match cloud (Controller.CloudCall.load fp) with
              | .ok _ => none
              | .error e => some (LogEntry.mk LogLevel.error
                  ("[Yandex Drive] Error uploading for " ++ fp ++ ": " ++ e))))
          ++ [LogEntry.mk LogLevel.info "[Yandex Drive] Files synchronised"] := by
  constructor
  · simp [Controller.sync_initial_state,
      (Controller.delete_phase_spec cloud drive_files).1,
      (Controller.upload_phase_spec cloud (keys current_folder_files)).1]
  · simp [Controller.sync_initial_state,
      (Controller.delete_phase_spec cloud drive_files).2,
      (Controller.upload_phase_spec cloud (keys current_folder_files)).2]

/-- Claim C4: no single item can abort a handle_changes batch. Splitting any
batch around an item, the attempted calls and the logs decompose so that
every item after it is processed identically; an item with an unrecognized
change kind produces only a warning log and no call; and an item whose cloud
call raises is still recorded in the trace, with the error logged together
with the file path and change kind. -/
theorem handle_changes_no_abort (cloud : Controller.CloudCall → Except String Controller.Response)
    (pre post : List (String × String)) (item : String × String) :
    Controller.handle_changes cloud (pre ++ item :: post)
      = ((Controller.handle_changes cloud pre).1 ++ (Controller.handle_one cloud item).1
           ++ (Controller.handle_changes cloud post).1,
         (Controller.handle_changes cloud pre).2 ++ (Controller.handle_one cloud item).2
           ++ (Controller.handle_changes cloud post).2)
    ∧ (∀ fp ct, Controller.action_map ct = none →
        Controller.handle_one cloud (fp, ct)
          = ([], [⟨LogLevel.warning, "[Yandex Drive] Unknown change type: " ++ ct⟩]))
    ∧ (∀ fp ct action e, Controller.action_map ct = some action →
        cloud (Controller.toCall action.method
          (if action.method = "delete" then Controller.basename fp else fp))
            = Except.error e →
        Controller.handle_one cloud (fp, ct)
          = ([Controller.toCall action.method
                (if action.method = "delete" then Controller.basename fp else fp)],
             [⟨LogLevel.info, "[Yandex Drive] Detected " ++ ct ++ " file: " ++ fp
                 ++ ". Processing in cloud."⟩,
              ⟨LogLevel.error, "[Yandex Drive] Error handling " ++ ct ++ " for " ++ fp
                  ++ ": " ++ e⟩])) := by
  refine ⟨?_, ?_, ?_⟩
  · rw [Controller.handle_changes_append]
    simp [Controller.handle_changes]
  · intro fp ct h
    simp [Controller.handle_one, h]
  · intro fp ct action e ha he
    simp [Controller.handle_one, ha, he]

/-- A cloud oracle on which every call raises. -/
def cloudBoom : Controller.CloudCall → Except String Controller.Response :=
  fun _ => Except.error "boom"

/-- Witness for C4: a three-item batch whose middle item's call raises, an
unknown-kind item, and a raising "modified" item, at concrete inputs. -/
theorem handle_changes_no_abort_witness :
    Controller.handle_changes cloudBoom
        ([("d/a.txt", "new")] ++ ("d/x.txt", "modified") :: [("d/b.txt", "deleted")])
      = ((Controller.handle_changes cloudBoom [("d/a.txt", "new")]).1
           ++ (Controller.handle_one cloudBoom ("d/x.txt", "modified")).1
           ++ (Controller.handle_changes cloudBoom [("d/b.txt", "deleted")]).1,
         (Controller.handle_changes cloudBoom [("d/a.txt", "new")]).2
           ++ (Controller.handle_one cloudBoom ("d/x.txt", "modified")).2
           ++ (Controller.handle_changes cloudBoom [("d/b.txt", "deleted")]).2)
    ∧ Controller.handle_one cloudBoom ("y", "renamed")
      = ([], [⟨LogLevel.warning, "[Yandex Drive] Unknown change type: renamed"⟩])
    ∧ Controller.handle_one cloudBoom ("d/x.txt", "modified")
      = ([Controller.CloudCall.reload "d/x.txt"],
         [⟨LogLevel.info, "[Yandex Drive] Detected modified file: d/x.txt. Processing in cloud."⟩,
          ⟨LogLevel.error, "[Yandex Drive] Error handling modified for d/x.txt: boom"⟩]) := by
  have h := handle_changes_no_abort cloudBoom [("d/a.txt", "new")] [("d/b.txt", "deleted")]
    ("d/x.txt", "modified")
  refine ⟨h.1, ?_, ?_⟩
  · exact h.2.1 "y" "renamed" rfl
  · exact h.2.2 "d/x.txt" "modified" Controller.modified_action "boom" rfl rfl

/-- Claim C6: response classification. For the delete action, three-way:
status 204 logs the success message; status 202 logs the in-progress message
and, when the body carries an href operation link, also that link; any other
status logs the error message with the status code and the response body.
For the new and modified actions only the binary success/error form applies:
201 logs success and anything else logs the error — their in-progress branch
is dead because they carry no alt code. -/
theorem process_response_classification (r : Controller.Response) (fp : String) :
    (Controller.process_response r Controller.delete_action fp
      = if r.status_code = 204 then
          [⟨LogLevel.info, "[Yandex Drive] File deleted for " ++ fp ++ "."⟩]
        else if r.status_code = 202 then
          ⟨LogLevel.info, "[Yandex Drive] Removing began for " ++ fp ++ "."⟩ ::
            (match r.href with
             | some link =>
                 [⟨LogLevel.info, "[Yandex Drive] Link to check status for " ++ fp
                     ++ ": " ++ link ++ "."⟩]
             | none => [])
        else
          [⟨LogLevel.info, "[Yandex Drive] Deletion error for " ++ fp ++ ": "
              ++ toString r.status_code ++ ", " ++ r.body ++ "."⟩])
    ∧ (Controller.process_response r Controller.new_action fp
      = if r.status_code = 201 then
          [⟨LogLevel.info, "[Yandex Drive] File uploaded for " ++ fp ++ "."⟩]
        else
          [⟨LogLevel.info, "[Yandex Drive] Upload error for " ++ fp ++ ": "
              ++ toString r.status_code ++ ", " ++ r.body ++ "."⟩])
    ∧ (Controller.process_response r Controller.modified_action fp
      = if r.status_code = 201 then
          [⟨LogLevel.info, "[Yandex Drive] Cloud updated for " ++ fp ++ "."⟩]
        else
          [⟨LogLevel.info, "[Yandex Drive] Update error for " ++ fp ++ ": "
              ++ toString r.status_code ++ ", " ++ r.body ++ "."⟩]) := by
  refine ⟨?_, ?_, ?_⟩ <;>
    simp [Controller.process_response, Controller.delete_action, Controller.new_action,
      Controller.modified_action]

/-- Claim C7: the argument dispatched to the remote operation is the base
name of the file path for a "deleted" change (method delete) and the full
file path for "new" (load) and "modified" (reload), whatever the outcome of
the call. -/
theorem dispatch_argument_by_kind
    (cloud : Controller.CloudCall → Except String Controller.Response) (fp : String) :
    (Controller.handle_one cloud (fp, "deleted")).1
      = [Controller.CloudCall.delete (Controller.basename fp)]
    ∧ (Controller.handle_one cloud (fp, "new")).1 = [Controller.CloudCall.load fp]
    ∧ (Controller.handle_one cloud (fp, "modified")).1
      = [Controller.CloudCall.reload fp] := by
  refine ⟨?_, ?_, ?_⟩
  · cases hc : cloud (Controller.CloudCall.delete (Controller.basename fp)) <;>
      simp [Controller.handle_one, Controller.action_map, Controller.delete_action,
        Controller.toCall, hc]
  · cases hc : cloud (Controller.CloudCall.load fp) <;>
      simp [Controller.handle_one, Controller.action_map, Controller.new_action,
        Controller.toCall, hc]
  · cases hc : cloud (Controller.CloudCall.reload fp) <;>
      simp [Controller.handle_one, Controller.action_map, Controller.modified_action,
        Controller.toCall, hc]

namespace CloudSync

/-- The HTTP requests that YandexDriveCloud's load path issues, with the
parameters the code sets: the GET on the upload endpoint carrying the
destination path and the overwrite flag, and the PUT of the file body to the
href returned for it (None when the response carried no href). -/
inductive YRequest
  | getUploadUrl (path : String) (overwrite : Bool)
  | putUpload (upload_link : Option String) (file_path : String)
deriving DecidableEq, Repr

/-- The attribute of a YandexDriveCloud instance that load/reload read. -/
structure Cloud where
  yandex_folder : String
deriving DecidableEq, Repr

/-- get_upload_url (CloudSync.py lines 37-55): builds the destination path
from the folder and the file's base name, issues the upload-URL request with
params overwrite='true', and extracts the href of the JSON response; net
models the network, mapping the request to that href. Returns the issued
requests and the extracted link. -/
def get_upload_url (c : Cloud) (net : YRequest → Option String) (file_path : String) :
    List YRequest × Option String :=
  let downloading_path := c.yandex_folder ++ "/" ++ Controller.basename file_path
  let req := YRequest.getUploadUrl downloading_path true
  ([req], net req)

/-- load (CloudSync.py lines 57-71): obtains the upload link, then PUTs the
file body to it. Returns the full request sequence. -/
def load (c : Cloud) (net : YRequest → Option String) (file_path : String) :
    List YRequest :=
  let r := get_upload_url c net file_path
  r.1 ++ [YRequest.putUpload r.2 file_path]

/-- reload (CloudSync.py lines 89-99): return self.load(file_path). -/
def reload (c : Cloud) (net : YRequest → Option String) (file_path : String) :
    List YRequest :=
  load c net file_path

end CloudSync

/-- Claim C10: the update operation reload is extensionally equal to the
upload operation load — for every folder, network behaviour and file path
they issue the same request sequence — and that sequence starts with the
upload-URL request carrying overwrite=true, so overwriting on update relies
on that parameter rather than on a distinct request sequence. -/
theorem reload_extensionally_load (c : CloudSync.Cloud)
    (net : CloudSync.YRequest → Option String) (fp : String) :
    CloudSync.reload c net fp = CloudSync.load c net fp
    ∧ CloudSync.load c net fp
      = [CloudSync.YRequest.getUploadUrl
           (c.yandex_folder ++ "/" ++ Controller.basename fp) true,
         CloudSync.YRequest.putUpload
           (net (CloudSync.YRequest.getUploadUrl
             (c.yandex_folder ++ "/" ++ Controller.basename fp) true)) fp] := by
  exact ⟨rfl, rfl⟩

end YandexSync
